import Mathlib

/-!
Shallow embedding of the user-account service in src/src/controllers/user.controller.ts.

The database table User is a list of records; the unique index on email
(prisma/migrations/20250122192243_created_unique_index) is carried as a
Nodup hypothesis where a theorem needs it.  bcrypt.hash and bcrypt.compare
are opaque collaborators, passed in as function parameters.  Each Express
handler becomes a pure function from the request fields and the database to
the HTTP response (and the new database for the mutating handlers).  A
missing or empty request string field is the empty string (JS falsiness);
a missing array field is Option.none, while a present-but-empty array is
some [] (JS: ![] is false).
-/

structure User where
  email : String
  name : String
  password : String
  isActive : Bool
deriving DecidableEq

structure UserView where
  name : String
  email : String
  isActive : Bool
deriving DecidableEq

inductive Payload where
  | regData (name email : String)
  | loginData (email name : String) (isActive : Bool)
  | usersData (users : List UserView)
deriving DecidableEq

/-- A JSON response together with its HTTP status code. -/
structure Resp where
  status : Nat
  success : Bool
  message : Option String
  count : Option Nat := none
  data : Option Payload := none
deriving DecidableEq

def missingFieldsResp : Resp :=
  { status := 400, success := false, message := some "All fields are required." }

def noUsersSelectedResp : Resp :=
  { status := 200, success := false, message := some "No users were selected." }

def invalidCredentialsResp : Resp :=
  { status := 401, success := false, message := some "Invalid credentials." }

def blockedLoginResp : Resp :=
  { status := 400, success := false, message := some "This account is blocked." }

def blockedActorResp : Resp :=
  { status := 401, success := false,
    message := some "Your account has been blocked or deleted." }

def selfToggleResp : Resp :=
  { status := 202, success := true, message := some "You have blocked your own account." }

def toggleSuccessResp (n : Nat) : Resp :=
  { status := 200, success := true,
    message := some (toString n ++ " user(s) status has changed.") }

def selfDeleteResp : Resp :=
  { status := 202, success := true, message := some "You have deleted your own account." }

def deleteSuccessResp (n : Nat) : Resp :=
  { status := 200, success := true,
    message := some (toString n ++ " user(s) have been deleted.") }

/-- prisma.user.findFirst with an email filter. -/
def findFirst (email : String) (db : List User) : Option User :=
  db.find? (fun u => u.email == email)

/-- createUser handler: validates, hashes, inserts; the unique index on email
makes the insert throw PrismaClientKnownRequestError on a duplicate, which the
handler maps to a 400 response. -/
def createUser (hash : String → String) (name email password : String)
    (db : List User) : Resp × List User :=
  if name = "" ∨ email = "" ∨ password = "" then
    (missingFieldsResp, db)
  else if db.any (fun u => u.email == email) then
    ({ status := 400, success := false, message := some "Email is already used." }, db)
  else
    ({ status := 200, success := true, message := none,
       data := some (Payload.regData name email) },
     db ++ [{ email := email, name := name, password := hash password, isActive := true }])

/-- loginUser handler. -/
def loginUser (compare : String → String → Bool) (email password : String)
    (db : List User) : Resp :=
  if email = "" ∨ password = "" then
    missingFieldsResp
  else
    match findFirst email db with
    | none => invalidCredentialsResp
    | some u =>
      if ¬ compare password u.password then
        invalidCredentialsResp
      else if ¬ u.isActive then
        blockedLoginResp
      else
        { status := 200, success := true, message := none,
          data := some (Payload.loginData email u.name u.isActive) }

/-- getUsers handler: findMany selecting name, email, isActive. -/
def getUsers (db : List User) : Resp :=
  { status := 200, success := true, message := none,
    count := some db.length,
    data := some (Payload.usersData (db.map fun u => UserView.mk u.name u.email u.isActive)) }

/-- verifyUser: true when the actor account exists and is active; the handler
throws ErrorResponse (caught as a 401) exactly when this is false. -/
def verifyUser (email : String) (db : List User) : Bool :=
  match findFirst email db with
  | none => false
  | some u => u.isActive

/-- prisma.user.update with a unique-email where clause, setting isActive. -/
def updateUserIsActive (email : String) (isActive : Bool) (db : List User) : List User :=
  db.map (fun u => if u.email == email then { u with isActive := isActive } else u)

/-- The transaction of toggle updates: one update per row read by findMany,
each writing the negation of the isActive value that was read. -/
def applyToggles (usersToUpdate : List User) (db : List User) : List User :=
  usersToUpdate.foldl (fun acc u => updateUserIsActive u.email (!u.isActive) acc) db

/-- toggleUserStatus handler. -/
def toggleUserStatus (userEmail : String) (emailsToUpdate : Option (List String))
    (db : List User) : Resp × List User :=
  match emailsToUpdate with
  | none => (missingFieldsResp, db)
  | some ts =>
    if userEmail = "" then (missingFieldsResp, db)
    else if ts.length = 0 then (noUsersSelectedResp, db)
    else if verifyUser userEmail db then
      let usersToUpdate := db.filter (fun u => ts.contains u.email)
      let db2 := applyToggles usersToUpdate db
      if ts.contains userEmail then (selfToggleResp, db2)
      else (toggleSuccessResp usersToUpdate.length, db2)
    else (blockedActorResp, db)

/-- deleteUsers handler; deleteMany reports the number of rows removed. -/
def deleteUsers (userEmail : String) (emailsToDelete : Option (List String))
    (db : List User) : Resp × List User :=
  match emailsToDelete with
  | none => (missingFieldsResp, db)
  | some ts =>
    if userEmail = "" then (missingFieldsResp, db)
    else if ts.length = 0 then (noUsersSelectedResp, db)
    else if verifyUser userEmail db then
      let deletedCount := (db.filter (fun u => ts.contains u.email)).length
      let db2 := db.filter (fun u => !(ts.contains u.email))
      if ts.contains userEmail then (selfDeleteResp, db2)
      else (deleteSuccessResp deletedCount, db2)
    else (blockedActorResp, db)

/-- Specification-side description of one toggled row: flip isActive exactly
when the email is targeted. -/
def flipIf (ts : List String) (u : User) : User :=
  if ts.contains u.email then { u with isActive := !u.isActive } else u

/-- One toggle update restricted to a single row. -/
def foldStep (x v : User) : User :=
  if x.email == v.email then { x with isActive := !v.isActive } else x

theorem updateUserIsActive_eq (v : User) (db : List User) :
    updateUserIsActive v.email (!v.isActive) db = db.map (fun x => foldStep x v) := rfl

theorem map_congr_mem {α β : Type} {f g : α → β} :
    ∀ l : List α, (∀ a ∈ l, f a = g a) → l.map f = l.map g := by
  intro l
  induction l with
  | nil => intro _; rfl
  | cons a l ih =>
    intro h
    simp only [List.map_cons, List.cons.injEq]
    exact ⟨h a (by simp), ih (fun b hb => h b (by simp [hb]))⟩

theorem applyToggles_eq_map_fold (ms : List User) (db : List User) :
    applyToggles ms db = db.map (fun x => ms.foldl foldStep x) := by
  induction ms generalizing db with
  | nil => simp [applyToggles]
  | cons v ms ih =>
    show applyToggles ms (updateUserIsActive v.email (!v.isActive) db) = _
    rw [updateUserIsActive_eq, ih, List.map_map]
    simp [Function.comp_def]

theorem foldStep_email (x v : User) : (foldStep x v).email = x.email := by
  unfold foldStep
  split <;> rfl

theorem foldl_foldStep_of_ne (ms : List User) (x : User)
    (h : ∀ v ∈ ms, v.email ≠ x.email) :
    ms.foldl foldStep x = x := by
  induction ms with
  | nil => rfl
  | cons v ms ih =>
    rw [List.foldl_cons]
    have hx : foldStep x v = x := by
      simp only [foldStep, beq_iff_eq]
      exact if_neg (fun hh => h v (List.mem_cons_self v ms) hh.symm)
    rw [hx]
    exact ih (fun w hw => h w (List.mem_cons_of_mem v hw))

theorem foldl_foldStep_single (ms1 ms2 : List User) (u : User)
    (h1 : ∀ v ∈ ms1, v.email ≠ u.email) (h2 : ∀ v ∈ ms2, v.email ≠ u.email) :
    (ms1 ++ u :: ms2).foldl foldStep u = { u with isActive := !u.isActive } := by
  rw [List.foldl_append, foldl_foldStep_of_ne ms1 u h1, List.foldl_cons]
  have hu : foldStep u u = { u with isActive := !u.isActive } := by
    simp [foldStep]
  rw [hu]
  exact foldl_foldStep_of_ne ms2 _ (fun v hv => h2 v hv)

theorem contains_true_of_mem {e : String} {ts : List String} (h : e ∈ ts) :
    ts.contains e = true :=
  List.elem_eq_true_of_mem h

theorem contains_false_of_not_mem {e : String} {ts : List String} (h : ¬ e ∈ ts) :
    ts.contains e = false := by
  cases hc : ts.contains e with
  | false => rfl
  | true => exact absurd (List.mem_of_elem_eq_true hc) h

theorem flipIf_pos {ts : List String} {u : User} (h : u.email ∈ ts) :
    flipIf ts u = { u with isActive := !u.isActive } := by
  simp [flipIf, h]

theorem flipIf_neg {ts : List String} {u : User} (h : ¬ u.email ∈ ts) :
    flipIf ts u = u := by
  simp [flipIf, h]

theorem flipIf_email (ts : List String) (u : User) : (flipIf ts u).email = u.email := by
  unfold flipIf
  split <;> rfl

/-- The toggle transaction, read under the unique-email invariant, flips
isActive exactly on the targeted rows. -/
theorem toggleDb_eq_map (ts : List String) (db : List User)
    (hnd : (db.map User.email).Nodup) :
    applyToggles (db.filter (fun u => ts.contains u.email)) db = db.map (flipIf ts) := by
  rw [applyToggles_eq_map_fold]
  apply map_congr_mem
  intro u hu
  by_cases hmem : ts.contains u.email = true
  · have humem : u ∈ db.filter (fun u => ts.contains u.email) :=
      List.mem_filter.mpr ⟨hu, hmem⟩
    obtain ⟨ms1, ms2, hsplit⟩ := List.append_of_mem humem
    have hnd2 : ((db.filter (fun u => ts.contains u.email)).map User.email).Nodup :=
      hnd.sublist ((List.filter_sublist db).map User.email)
    rw [hsplit] at hnd2
    rw [List.map_append, List.map_cons, List.nodup_append] at hnd2
    obtain ⟨hnd1, hndc, hdisj⟩ := hnd2
    have h1 : ∀ v ∈ ms1, v.email ≠ u.email := by
      intro v hv he
      exact hdisj (List.mem_map_of_mem User.email hv)
        (by rw [he]; exact List.mem_cons_self _ _)
    have h2 : ∀ v ∈ ms2, v.email ≠ u.email := by
      intro v hv he
      rcases List.nodup_cons.mp hndc with ⟨hnotin, _⟩
      exact hnotin (by rw [← he]; exact List.mem_map_of_mem User.email hv)
    rw [hsplit, foldl_foldStep_single ms1 ms2 u h1 h2]
    exact (flipIf_pos (List.mem_of_elem_eq_true hmem)).symm
  · have hne : ∀ v ∈ db.filter (fun u => ts.contains u.email), v.email ≠ u.email := by
      intro v hv hvu
      have hvc := (List.mem_filter.mp hv).2
      rw [hvu] at hvc
      exact hmem hvc
    rw [foldl_foldStep_of_ne _ _ hne]
    exact (flipIf_neg (fun c => hmem (contains_true_of_mem c))).symm

theorem flipIf_flipIf (ts : List String) (u : User) : flipIf ts (flipIf ts u) = u := by
  by_cases h : u.email ∈ ts
  · rw [flipIf_pos h]
    have h2 : ({ u with isActive := !u.isActive } : User).email ∈ ts := h
    rw [flipIf_pos h2]
    cases u
    simp
  · rw [flipIf_neg h, flipIf_neg h]

theorem map_flipIf_email (ts : List String) (db : List User) :
    (db.map (flipIf ts)).map User.email = db.map User.email := by
  rw [List.map_map]
  exact map_congr_mem db (fun u _ => flipIf_email ts u)

theorem map_flipIf_flipIf (ts : List String) (db : List User) :
    (db.map (flipIf ts)).map (flipIf ts) = db := by
  rw [List.map_map]
  have h : db.map (flipIf ts ∘ flipIf ts) = db.map id :=
    map_congr_mem db (fun u _ => flipIf_flipIf ts u)
  rw [h, List.map_id]

theorem findFirst_map (f : User → User) (hf : ∀ u, (f u).email = u.email)
    (e : String) (db : List User) :
    findFirst e (db.map f) = (findFirst e db).map f := by
  induction db with
  | nil => rfl
  | cons u l ih =>
    simp only [findFirst, List.map_cons, List.find?_cons, hf u]
    by_cases hc : (u.email == e) = true
    · simp [hc]
    · simp only [hc, if_false, Bool.false_eq_true]
      exact ih

theorem findFirst_email {e : String} {db : List User} {u : User}
    (h : findFirst e db = some u) : u.email = e := by
  have hp := List.find?_some h
  exact (beq_iff_eq).mp hp

theorem verifyUser_map_flip (e : String) (ts : List String) (db : List User)
    (h : ¬ e ∈ ts) :
    verifyUser e (db.map (flipIf ts)) = verifyUser e db := by
  unfold verifyUser
  rw [findFirst_map (flipIf ts) (flipIf_email ts) e db]
  cases hf : findFirst e db with
  | none => rfl
  | some u =>
    have hue : u.email = e := findFirst_email hf
    have hflip : flipIf ts u = u := flipIf_neg (by rw [hue]; exact h)
    simp [hflip]

theorem toggleUserStatus_main (userEmail : String) (ts : List String) (db : List User)
    (hu : ¬ userEmail = "") (hts : ¬ ts.length = 0) (hv : verifyUser userEmail db = true) :
    toggleUserStatus userEmail (some ts) db
      = (if ts.contains userEmail then selfToggleResp
         else toggleSuccessResp (db.filter (fun u => ts.contains u.email)).length,
         applyToggles (db.filter (fun u => ts.contains u.email)) db) := by
  by_cases hc : userEmail ∈ ts <;>
    simp [toggleUserStatus, hu, hts, hv, hc]

theorem deleteUsers_main (userEmail : String) (ts : List String) (db : List User)
    (hu : ¬ userEmail = "") (hts : ¬ ts.length = 0) (hv : verifyUser userEmail db = true) :
    deleteUsers userEmail (some ts) db
      = (if ts.contains userEmail then selfDeleteResp
         else deleteSuccessResp (db.filter (fun u => ts.contains u.email)).length,
         db.filter (fun u => !(ts.contains u.email))) := by
  by_cases hc : userEmail ∈ ts <;>
    simp [deleteUsers, hu, hts, hv, hc]

theorem toggleUserStatus_blocked (userEmail : String) (ts : List String) (db : List User)
    (hu : ¬ userEmail = "") (hts : ¬ ts.length = 0) (hv : verifyUser userEmail db = false) :
    toggleUserStatus userEmail (some ts) db = (blockedActorResp, db) := by
  simp [toggleUserStatus, hu, hts, hv]

theorem deleteUsers_blocked (userEmail : String) (ts : List String) (db : List User)
    (hu : ¬ userEmail = "") (hts : ¬ ts.length = 0) (hv : verifyUser userEmail db = false) :
    deleteUsers userEmail (some ts) db = (blockedActorResp, db) := by
  simp [deleteUsers, hu, hts, hv]

theorem toggleUserStatus_empty (userEmail : String) (db : List User)
    (hu : ¬ userEmail = "") :
    toggleUserStatus userEmail (some []) db = (noUsersSelectedResp, db) := by
  simp [toggleUserStatus, hu]

theorem deleteUsers_empty (userEmail : String) (db : List User)
    (hu : ¬ userEmail = "") :
    deleteUsers userEmail (some []) db = (noUsersSelectedResp, db) := by
  simp [deleteUsers, hu]

/-- Claim C1: a login whose email matches no account and a login whose email
matches an account but whose password fails the hash comparison produce the
identical response: status 401 with the same error message, so the two
failure causes are indistinguishable. -/
theorem login_failure_uniform (cmp : String → String → Bool)
    (e1 p1 e2 p2 : String) (db1 db2 : List User) (u : User)
    (he1 : e1 ≠ "") (hp1 : p1 ≠ "") (he2 : e2 ≠ "") (hp2 : p2 ≠ "")
    (hn : findFirst e1 db1 = none)
    (hf : findFirst e2 db2 = some u) (hc : cmp p2 u.password = false) :
    loginUser cmp e1 p1 db1 = loginUser cmp e2 p2 db2
    ∧ loginUser cmp e1 p1 db1 = invalidCredentialsResp
    ∧ invalidCredentialsResp.status = 401
    ∧ invalidCredentialsResp.message = some "Invalid credentials." := by
  have h1 : loginUser cmp e1 p1 db1 = invalidCredentialsResp := by
    simp [loginUser, he1, hp1, hn]
  have h2 : loginUser cmp e2 p2 db2 = invalidCredentialsResp := by
    simp [loginUser, he2, hp2, hf, hc]
  exact ⟨h1.trans h2.symm, h1, rfl, rfl⟩

/-- Claim C3: with a present but empty target list, toggleUserStatus and
deleteUsers both return the status-200 nothing-selected response and leave
the database untouched. -/
theorem empty_selection_noop (userEmail : String) (db : List User)
    (hu : userEmail ≠ "") :
    toggleUserStatus userEmail (some []) db = (noUsersSelectedResp, db)
    ∧ deleteUsers userEmail (some []) db = (noUsersSelectedResp, db)
    ∧ noUsersSelectedResp.status = 200
    ∧ noUsersSelectedResp.message = some "No users were selected." :=
  ⟨toggleUserStatus_empty userEmail db hu, deleteUsers_empty userEmail db hu, rfl, rfl⟩

/-- Claim C10: the empty-target check runs before actor verification, so with
an empty target list every actor email, including one with no account or an
inactive account, gets the nothing-selected response and the 401
authorization branch is unreachable. -/
theorem empty_check_precedes_auth (userEmail : String) (db : List User)
    (hu : userEmail ≠ "") :
    (toggleUserStatus userEmail (some []) db).1 = noUsersSelectedResp
    ∧ (deleteUsers userEmail (some []) db).1 = noUsersSelectedResp
    ∧ (toggleUserStatus userEmail (some []) db).1.status ≠ 401
    ∧ (deleteUsers userEmail (some []) db).1.status ≠ 401 := by
  rw [toggleUserStatus_empty userEmail db hu, deleteUsers_empty userEmail db hu]
  exact ⟨rfl, rfl, by simp [noUsersSelectedResp], by simp [noUsersSelectedResp]⟩

/-- Claim C5: with a non-empty target list, an actor whose account is missing
or inactive gets the 401 authorization error from both bulk handlers and no
account is modified or deleted. -/
theorem blocked_actor_rejected (userEmail : String) (ts : List String)
    (db : List User) (hu : userEmail ≠ "") (hts : ts ≠ [])
    (hv : findFirst userEmail db = none
          ∨ ∃ u, findFirst userEmail db = some u ∧ u.isActive = false) :
    toggleUserStatus userEmail (some ts) db = (blockedActorResp, db)
    ∧ deleteUsers userEmail (some ts) db = (blockedActorResp, db)
    ∧ blockedActorResp.status = 401 := by
  have hlen : ¬ ts.length = 0 := by simpa [List.length_eq_zero] using hts
  have hvf : verifyUser userEmail db = false := by
    unfold verifyUser
    rcases hv with h | ⟨u, hu2, hi⟩
    · rw [h]
    · rw [hu2]
      exact hi
  exact ⟨toggleUserStatus_blocked userEmail ts db hu hlen hvf,
    deleteUsers_blocked userEmail ts db hu hlen hvf, rfl⟩

/-- Claim C2: with a non-empty target list and a verified active actor,
toggleUserStatus negates isActive exactly on the stored accounts whose email
is targeted, skipping target emails with no account, and the success message
reports the number of matched rows. -/
theorem toggleStatus_matched_spec (userEmail : String) (ts : List String)
    (db : List User) (hnd : (db.map User.email).Nodup) (hu : userEmail ≠ "")
    (hts : ts ≠ []) (hv : verifyUser userEmail db = true) :
    (toggleUserStatus userEmail (some ts) db).2 = db.map (flipIf ts)
    ∧ (¬ userEmail ∈ ts →
        (toggleUserStatus userEmail (some ts) db).1
          = toggleSuccessResp (db.filter (fun u => ts.contains u.email)).length) := by
  have hlen : ¬ ts.length = 0 := by simpa [List.length_eq_zero] using hts
  rw [toggleUserStatus_main userEmail ts db hu hlen hv]
  constructor
  · exact toggleDb_eq_map ts db hnd
  · intro hmem
    simp [hmem]

/-- Claim C4: with non-empty targets and a verified active actor, both bulk
handlers answer 202 with the self-referential message when the actor email is
among the targets, and 200 with the ordinary count message when it is not. -/
theorem self_referential_status (userEmail : String) (ts : List String)
    (db : List User) (hu : userEmail ≠ "") (hts : ts ≠ [])
    (hv : verifyUser userEmail db = true) :
    (userEmail ∈ ts →
      (toggleUserStatus userEmail (some ts) db).1 = selfToggleResp
      ∧ (deleteUsers userEmail (some ts) db).1 = selfDeleteResp)
    ∧ (¬ userEmail ∈ ts →
      (toggleUserStatus userEmail (some ts) db).1
        = toggleSuccessResp (db.filter (fun u => ts.contains u.email)).length
      ∧ (deleteUsers userEmail (some ts) db).1
        = deleteSuccessResp (db.filter (fun u => ts.contains u.email)).length)
    ∧ selfToggleResp.status = 202 ∧ selfDeleteResp.status = 202
    ∧ (∀ n, (toggleSuccessResp n).status = 200 ∧ (deleteSuccessResp n).status = 200) := by
  have hlen : ¬ ts.length = 0 := by simpa [List.length_eq_zero] using hts
  rw [toggleUserStatus_main userEmail ts db hu hlen hv,
    deleteUsers_main userEmail ts db hu hlen hv]
  refine ⟨fun hm => ?_, fun hm => ?_, rfl, rfl, fun n => ⟨rfl, rfl⟩⟩
  · constructor <;> simp [hm]
  · constructor <;> simp [hm]

/-- Claim C6 counterexample: a self-targeting toggle deactivates the actor,
so the second identical call fails authorization and does not toggle back;
after the two calls the account is inactive although it started active. -/
theorem toggleStatus_twice_cex :
    ((toggleUserStatus "a@x" (some ["a@x"])
        (toggleUserStatus "a@x" (some ["a@x"])
          [User.mk "a@x" "A" "ha" true]).2).2).map User.isActive = [false]
    ∧ ([User.mk "a@x" "A" "ha" true] : List User).map User.isActive = [true] := by
  decide

/-- Claim C6 as amended: under the unique-email invariant, calling
toggleUserStatus twice with the same target list restores every account,
provided the actor email is not itself among the targets. -/
theorem toggleStatus_twice_id (userEmail : String) (ts : List String)
    (db : List User) (hnd : (db.map User.email).Nodup) (hself : ¬ userEmail ∈ ts) :
    (toggleUserStatus userEmail (some ts)
        (toggleUserStatus userEmail (some ts) db).2).2 = db := by
  by_cases hu : userEmail = ""
  · simp [toggleUserStatus, hu]
  · by_cases hts : ts.length = 0
    · simp [toggleUserStatus, hu, hts]
    · by_cases hv : verifyUser userEmail db = true
      · have s1 : (toggleUserStatus userEmail (some ts) db).2 = db.map (flipIf ts) := by
          rw [toggleUserStatus_main userEmail ts db hu hts hv]
          exact toggleDb_eq_map ts db hnd
        rw [s1]
        have hv2 : verifyUser userEmail (db.map (flipIf ts)) = true := by
          rw [verifyUser_map_flip userEmail ts db hself]
          exact hv
        have hnd2 : ((db.map (flipIf ts)).map User.email).Nodup := by
          rw [map_flipIf_email]
          exact hnd
        have s2 : (toggleUserStatus userEmail (some ts) (db.map (flipIf ts))).2
            = (db.map (flipIf ts)).map (flipIf ts) := by
          rw [toggleUserStatus_main userEmail ts (db.map (flipIf ts)) hu hts hv2]
          exact toggleDb_eq_map ts (db.map (flipIf ts)) hnd2
        rw [s2]
        exact map_flipIf_flipIf ts db
      · have hvf : verifyUser userEmail db = false := by
          cases hb : verifyUser userEmail db
          · rfl
          · exact absurd hb hv
        have s1 : toggleUserStatus userEmail (some ts) db = (blockedActorResp, db) :=
          toggleUserStatus_blocked userEmail ts db hu hts hvf
        rw [s1]
        show (toggleUserStatus userEmail (some ts) db).2 = db
        rw [s1]

/-- Claim C7: any bulk call leaves every account whose email is not targeted
in the database with all of its fields intact; for deletion it still exists. -/
theorem bulk_frame_property (userEmail : String) (ts : List String)
    (db : List User) (u : User) (hnd : (db.map User.email).Nodup)
    (hu : u ∈ db) (hmem : ¬ u.email ∈ ts) :
    u ∈ (toggleUserStatus userEmail (some ts) db).2
    ∧ u ∈ (deleteUsers userEmail (some ts) db).2 := by
  by_cases he : userEmail = ""
  · constructor <;> simp [toggleUserStatus, deleteUsers, he, hu]
  · by_cases hts : ts.length = 0
    · constructor <;> simp [toggleUserStatus, deleteUsers, he, hts, hu]
    · by_cases hv : verifyUser userEmail db = true
      · constructor
        · have s1 : (toggleUserStatus userEmail (some ts) db).2 = db.map (flipIf ts) := by
            rw [toggleUserStatus_main userEmail ts db he hts hv]
            exact toggleDb_eq_map ts db hnd
          rw [s1]
          exact List.mem_map.mpr ⟨u, hu, flipIf_neg hmem⟩
        · have s2 : deleteUsers userEmail (some ts) db
              = (if ts.contains userEmail then selfDeleteResp
                 else deleteSuccessResp (db.filter (fun u => ts.contains u.email)).length,
                 db.filter (fun u => !(ts.contains u.email))) :=
            deleteUsers_main userEmail ts db he hts hv
          rw [s2]
          exact List.mem_filter.mpr ⟨hu, by rw [contains_false_of_not_mem hmem]; rfl⟩
      · have hvf : verifyUser userEmail db = false := by
          cases hb : verifyUser userEmail db
          · rfl
          · exact absurd hb hv
        rw [toggleUserStatus_blocked userEmail ts db he hts hvf,
          deleteUsers_blocked userEmail ts db he hts hvf]
        exact ⟨hu, hu⟩

/-- Claim C8: when the email matches an account and the hash comparison
passes, login answers the distinct 400 blocked error on an inactive account
and the 200 profile with email, name and active status on an active one. -/
theorem login_active_branch (cmp : String → String → Bool) (e p : String)
    (db : List User) (u : User) (he : e ≠ "") (hp : p ≠ "")
    (hf : findFirst e db = some u) (hc : cmp p u.password = true) :
    (u.isActive = false →
      loginUser cmp e p db = blockedLoginResp
      ∧ blockedLoginResp.status = 400
      ∧ blockedLoginResp.message ≠ invalidCredentialsResp.message)
    ∧ (u.isActive = true →
      loginUser cmp e p db
        = { status := 200, success := true, message := none,
            data := some (Payload.loginData e u.name true) }) := by
  constructor
  · intro hi
    refine ⟨?_, rfl, by simp [blockedLoginResp, invalidCredentialsResp]⟩
    simp [loginUser, he, hp, hf, hc, hi]
  · intro hi
    simp [loginUser, he, hp, hf, hc, hi]

/-- Claim C9: no handler response carries the stored password hash.  The
register success payload holds only name and email; the user listing is
insensitive to every stored password and exposes only name, email and
isActive; a successful login exposes only email, name and isActive even
though the lookup read the password column. -/
theorem password_never_exposed :
    (∀ (hash : String → String) (name email password : String) (db : List User),
      ((createUser hash name email password db).1).data = none
      ∨ ((createUser hash name email password db).1).data
          = some (Payload.regData name email))
    ∧ (∀ (db : List User) (f : User → String),
      getUsers (db.map (fun u => { u with password := f u })) = getUsers db)
    ∧ (∀ db : List User,
      (getUsers db).data
        = some (Payload.usersData (db.map (fun u => UserView.mk u.name u.email u.isActive))))
    ∧ (∀ (cmp : String → String → Bool) (e p : String) (db : List User),
      (loginUser cmp e p db).status = 200 →
      ∃ u, findFirst e db = some u
        ∧ (loginUser cmp e p db).data = some (Payload.loginData e u.name u.isActive)) := by
  refine ⟨?_, ?_, fun db => rfl, ?_⟩
  · intro hash name email password db
    by_cases h1 : name = "" ∨ email = "" ∨ password = ""
    · exact Or.inl (by simp [createUser, h1, missingFieldsResp])
    · by_cases h2 : db.any (fun u => u.email == email) = true
      · exact Or.inl (by simp [createUser, h1, h2])
      · exact Or.inr (by simp [createUser, h1, h2])
  · intro db f
    unfold getUsers
    simp only [List.length_map, List.map_map]
    congr 2
  · intro cmp e p db
    unfold loginUser
    by_cases h1 : e = "" ∨ p = ""
    · intro hs
      rw [if_pos h1] at hs
      exact absurd hs (by simp [missingFieldsResp])
    · rw [if_neg h1]
      cases hf : findFirst e db with
      | none => exact fun hs => absurd hs (by simp [invalidCredentialsResp])
      | some u =>
        by_cases hc : cmp p u.password = true
        · by_cases hi : u.isActive = true
          · intro _
            exact ⟨u, rfl, by simp [hc, hi]⟩
          · intro hs
            simp only [hc, hi] at hs
            exact absurd hs (by simp [blockedLoginResp])
        · intro hs
          simp only [hc] at hs
          exact absurd hs (by simp [invalidCredentialsResp])

/-- Concrete witness for login_failure_uniform: unknown email against an empty
table and wrong password against an existing account give the same response. -/
theorem login_failure_uniform_witness :
    loginUser (fun p h => p == h) "z@x" "pw" []
      = loginUser (fun p h => p == h) "a@x" "pw" [User.mk "a@x" "A" "secret" true]
    ∧ loginUser (fun p h => p == h) "z@x" "pw" [] = invalidCredentialsResp
    ∧ invalidCredentialsResp.status = 401
    ∧ invalidCredentialsResp.message = some "Invalid credentials." :=
  login_failure_uniform (fun p h => p == h) "z@x" "pw" "a@x" "pw" []
    [User.mk "a@x" "A" "secret" true] (User.mk "a@x" "A" "secret" true)
    (by decide) (by decide) (by decide) (by decide) (by rfl) (by rfl) (by decide)

/-- Concrete witness for toggleStatus_matched_spec. -/
theorem toggleStatus_matched_spec_witness :
    (toggleUserStatus "a@x" (some ["b@x", "z@x"])
        [User.mk "a@x" "A" "ha" true, User.mk "b@x" "B" "hb" false]).2
      = [User.mk "a@x" "A" "ha" true,
         User.mk "b@x" "B" "hb" false].map (flipIf ["b@x", "z@x"]) :=
  (toggleStatus_matched_spec "a@x" ["b@x", "z@x"]
    [User.mk "a@x" "A" "ha" true, User.mk "b@x" "B" "hb" false]
    (by decide) (by decide) (by decide) (by rfl)).1

/-- Concrete witness for empty_selection_noop. -/
theorem empty_selection_noop_witness :
    toggleUserStatus "a@x" (some []) [User.mk "a@x" "A" "ha" true]
      = (noUsersSelectedResp, [User.mk "a@x" "A" "ha" true])
    ∧ deleteUsers "a@x" (some []) [User.mk "a@x" "A" "ha" true]
      = (noUsersSelectedResp, [User.mk "a@x" "A" "ha" true])
    ∧ noUsersSelectedResp.status = 200
    ∧ noUsersSelectedResp.message = some "No users were selected." :=
  empty_selection_noop "a@x" [User.mk "a@x" "A" "ha" true] (by decide)

/-- Concrete witness for self_referential_status, self-targeting case. -/
theorem self_referential_status_witness :
    (toggleUserStatus "a@x" (some ["a@x"]) [User.mk "a@x" "A" "ha" true]).1 = selfToggleResp
    ∧ (deleteUsers "a@x" (some ["a@x"]) [User.mk "a@x" "A" "ha" true]).1 = selfDeleteResp :=
  (self_referential_status "a@x" ["a@x"] [User.mk "a@x" "A" "ha" true]
    (by decide) (by decide) (by rfl)).1 (by decide)

/-- Concrete witness for blocked_actor_rejected: the actor exists but is
inactive, and the target email is a valid other account. -/
theorem blocked_actor_rejected_witness :
    toggleUserStatus "c@x" (some ["a@x"])
        [User.mk "c@x" "C" "hc" false, User.mk "a@x" "A" "ha" true]
      = (blockedActorResp, [User.mk "c@x" "C" "hc" false, User.mk "a@x" "A" "ha" true])
    ∧ deleteUsers "c@x" (some ["a@x"])
        [User.mk "c@x" "C" "hc" false, User.mk "a@x" "A" "ha" true]
      = (blockedActorResp, [User.mk "c@x" "C" "hc" false, User.mk "a@x" "A" "ha" true])
    ∧ blockedActorResp.status = 401 :=
  blocked_actor_rejected "c@x" ["a@x"]
    [User.mk "c@x" "C" "hc" false, User.mk "a@x" "A" "ha" true]
    (by decide) (by decide)
    (Or.inr ⟨User.mk "c@x" "C" "hc" false, by rfl, rfl⟩)

/-- Concrete witness for toggleStatus_twice_id: the actor is not targeted, so
a double toggle of another account restores the database. -/
theorem toggleStatus_twice_id_witness :
    (toggleUserStatus "a@x" (some ["b@x"])
        (toggleUserStatus "a@x" (some ["b@x"])
          [User.mk "a@x" "A" "ha" true, User.mk "b@x" "B" "hb" true]).2).2
      = [User.mk "a@x" "A" "ha" true, User.mk "b@x" "B" "hb" true] :=
  toggleStatus_twice_id "a@x" ["b@x"]
    [User.mk "a@x" "A" "ha" true, User.mk "b@x" "B" "hb" true]
    (by decide) (by decide)

/-- Concrete witness for bulk_frame_property: a non-targeted account survives
both bulk calls unchanged. -/
theorem bulk_frame_property_witness :
    User.mk "c@x" "C" "hc" true
      ∈ (toggleUserStatus "a@x" (some ["b@x"])
          [User.mk "a@x" "A" "ha" true, User.mk "c@x" "C" "hc" true]).2
    ∧ User.mk "c@x" "C" "hc" true
      ∈ (deleteUsers "a@x" (some ["b@x"])
          [User.mk "a@x" "A" "ha" true, User.mk "c@x" "C" "hc" true]).2 :=
  bulk_frame_property "a@x" ["b@x"]
    [User.mk "a@x" "A" "ha" true, User.mk "c@x" "C" "hc" true]
    (User.mk "c@x" "C" "hc" true) (by decide) (by decide) (by decide)

/-- Concrete witness for login_active_branch: correct password on an active
account yields the 200 profile. -/
theorem login_active_branch_witness :
    loginUser (fun p h => p == h) "a@x" "pw" [User.mk "a@x" "A" "pw" true]
      = { status := 200, success := true, message := none,
          data := some (Payload.loginData "a@x" (User.mk "a@x" "A" "pw" true).name true) } :=
  (login_active_branch (fun p h => p == h) "a@x" "pw" [User.mk "a@x" "A" "pw" true]
    (User.mk "a@x" "A" "pw" true) (by decide) (by decide) (by rfl) (by rfl)).2 rfl

/-- Concrete witness for password_never_exposed: a successful login exposes
only email, name and isActive. -/
theorem password_never_exposed_witness :
    ∃ u, findFirst "a@x" [User.mk "a@x" "A" "pw" true] = some u
      ∧ (loginUser (fun p h => p == h) "a@x" "pw" [User.mk "a@x" "A" "pw" true]).data
          = some (Payload.loginData "a@x" u.name u.isActive) :=
  password_never_exposed.2.2.2 (fun p h => p == h) "a@x" "pw"
    [User.mk "a@x" "A" "pw" true] (by rfl)

/-- Concrete witness for empty_check_precedes_auth: an actor with no account
still gets the nothing-selected response on an empty target list. -/
theorem empty_check_precedes_auth_witness :
    (toggleUserStatus "ghost@x" (some []) []).1 = noUsersSelectedResp
    ∧ (deleteUsers "ghost@x" (some []) []).1 = noUsersSelectedResp
    ∧ (toggleUserStatus "ghost@x" (some []) []).1.status ≠ 401
    ∧ (deleteUsers "ghost@x" (some []) []).1.status ≠ 401 :=
  empty_check_precedes_auth "ghost@x" [] (by decide)
